import Mathlib

/-!
Verification of the live-chat-intelligence backend against its
natural-language specification.

The repository has two pipeline variants: `chat_viz_backend.py` (the v1
local variant) and `chat_viz_backend_v2.py` (the v2 production variant).
The Python functions relevant to the claims are shallowly embedded below;
the `v1…`/`v2…` prefixes mirror the two files.

Modelling conventions:

* Python floats (timestamps, confidences) are modelled as exact rationals
  `ℚ`.  Every confidence constant in the spam detector is an exact multiple
  of 1/20 and the only arithmetic performed on confidences is `max`,
  `+ 0.2` and `min 0.75`, so the rational model agrees with the float
  computation on every comparison against the 0.7 / 0.75 thresholds, and
  Python's `round(c, 2)` is the identity on every reachable value and is
  therefore omitted.

* Python's regex class `\w`, `str.isalpha` / `str.isupper` and
  `str.upper` / `str.lower` are modelled over the ASCII fragment of
  Unicode; all dictionary data and all concrete inputs used below are
  ASCII.

* Calls into external collaborators — the LLM completion service, the
  `emoji` package's data table, Python's opaque string `hash`, the three
  compiled spam regexes and the question regex — are modelled as
  parameters (a function argument or a record of per-text observations).
  Each is a deterministic function of the message text; no claim settled
  below depends on the internal definition of any of them.
-/

namespace ChatViz

/-- Python `str.lower`, per character (ASCII fragment). -/
def lowerChar (c : Char) : Char := c.toLower

/-- Python `str.upper`, per character (ASCII fragment). -/
def upperChar (c : Char) : Char := c.toUpper

/-- Python regex class `\w` (word character), ASCII fragment:
letters, digits and the underscore. -/
def isWordChar (c : Char) : Bool := c.isAlphanum || c == '_'

/-- The character class `[A-Z]`: an ASCII uppercase letter. -/
def isUpperLetter (c : Char) : Bool := 65 ≤ c.toNat && c.toNat ≤ 90

/-- Accumulator loop of `wordTokens`: `acc` holds the current word-character
run, reversed. -/
def wordTokensAux : List Char → List Char → List String
  | [], acc => if acc.isEmpty then [] else [String.mk acc.reverse]
  | c :: cs, acc =>
      if isWordChar c then wordTokensAux cs (c :: acc)
      else if acc.isEmpty then wordTokensAux cs []
      else String.mk acc.reverse :: wordTokensAux cs []

/-- The maximal `\w+` runs of a character list, in order: the word list that
Python's `re.findall(r'\w+', s)` produces.  The same tokenisation underlies
whole-word search `re.search(r'\bWORD\b', s)` for a `WORD` made of word
characters only: such a match must be bordered on both sides by a non-word
character or the string's edge, i.e. it is exactly one of these tokens. -/
def wordTokens (s : List Char) : List String := wordTokensAux s []

/-- Leftmost match of `re.search(r'\$([A-Z]{1,5})\b', s)`, returning the
captured group.  At a given `$` the greedy `[A-Z]{1,5}` with the trailing
`\b` succeeds iff the maximal uppercase-letter run after the `$` has length
1–5 and is followed by a non-word character or the end of the string (a
shorter prefix of the run is always followed by an uppercase letter, so
backtracking never helps); otherwise the regex engine moves on to the next
`$`. -/
def dollarScan : List Char → Option String
  | [] => none
  | c :: cs =>
      if c == '$' then
        let run := cs.takeWhile isUpperLetter
        if 1 ≤ run.length && run.length ≤ 5 &&
            (match cs.dropWhile isUpperLetter with
             | [] => true
             | r :: _ => !isWordChar r) then
          some (String.mk run)
        else dollarScan cs
      else dollarScan cs

/-!
### Dictionary data

The ticker dictionaries and sentiment lexicons of the two variants,
transcribed in source order.  In Python these are `set`/`dict` literals and
are only ever used through membership tests (or, for `COMPANY_NAMES`,
through insertion-ordered iteration), so lists are a faithful model;
duplicated elements in a source `set` literal are kept where they occur
except in the sentiment lexicons, where the collapsed (set) form is needed
because the lexicons are counted, not just probed (the v1 source repeats
'bullish' and Python's set literal collapses the repeat).
-/

def v1CompanyNames : List (String × String) := [
  ("TESLA", "TSLA"), ("NVIDIA", "NVDA"), ("APPLE", "AAPL"), ("MICROSOFT", "MSFT"),
  ("AMAZON", "AMZN"), ("GOOGLE", "GOOGL"), ("ALPHABET", "GOOGL"), ("PALANTIR", "PLTR"),
  ("COINBASE", "COIN"), ("ROBINHOOD", "HOOD"), ("GAMESTOP", "GME"), ("SUPERMICRO", "SMCI"),
  ("BROADCOM", "AVGO"), ("MICRON", "MU"), ("QUALCOMM", "QCOM"), ("NETFLIX", "NFLX"),
  ("DISNEY", "DIS"), ("PAYPAL", "PYPL"), ("SNOWFLAKE", "SNOW"), ("CROWDSTRIKE", "CRWD"),
  ("ROCKETLAB", "RKLB"), ("ROCKET", "RKLB"), ("SPACEX", "SPACEX"), ("DATADOG", "DDOG"),
  ("SALESFORCE", "CRM"), ("ORACLE", "ORCL"), ("ADOBE", "ADBE"), ("INTEL", "INTC"),
  ("COSTCO", "COST"), ("WALMART", "WMT"), ("TARGET", "TGT"), ("STARBUCKS", "SBUX"),
  ("MCDONALDS", "MCD"), ("CHIPOTLE", "CMG"), ("BOEING", "BA"), ("LOCKHEED", "LMT")]

def v1Known : List String := [
  "AAPL", "MSFT", "GOOGL", "GOOG", "AMZN", "NVDA", "META", "TSLA", "BRK", "BRKB",
  "TSM", "AVGO", "LLY", "JPM", "UNH", "V", "MA", "XOM", "JNJ", "WMT",
  "AMD", "INTC", "MU", "QCOM", "TXN", "AMAT", "LRCX", "KLAC", "ADI", "MRVL",
  "NXPI", "MCHP", "ON", "SWKS", "QRVO", "MPWR", "SMCI", "ARM", "ASML", "SNPS",
  "CDNS", "ANSS", "WOLF", "SLAB", "CRUS", "MKSI", "ENTG", "ACLS", "COHR", "IPGP",
  "CRM", "ORCL", "ADBE", "NOW", "INTU", "PANW", "CRWD", "SNOW", "DDOG", "ZS",
  "NET", "PLTR", "MDB", "ESTC", "SPLK", "TEAM", "OKTA", "ZM", "TWLO", "HUBS",
  "DOCU", "WDAY", "VEEV", "RNG", "BILL", "PATH", "DOCN", "CFLT", "MNDY", "GTLB",
  "S", "TENB", "CYBR", "FTNT", "RPD", "QLYS", "VRNS", "SAIL", "SMAR", "APPN",
  "IONQ", "RGTI", "QBTS", "QUBT", "ARQQ", "SOUN", "BBAI", "AI", "UPST", "CXAI",
  "NFLX", "SPOT", "ROKU", "TTD", "PINS", "SNAP", "RBLX", "U", "TTWO", "EA",
  "MTCH", "BMBL", "YELP", "TRIP", "EXPE", "BKNG", "ABNB", "UBER", "LYFT", "DASH",
  "GRUB", "DKNG", "PENN", "CHWY", "ETSY", "EBAY", "MELI", "SE", "SHOP", "SQ",
  "PYPL", "SQ", "AFRM", "SOFI", "HOOD", "COIN", "UPST", "LC", "MQ", "FOUR",
  "PAYO", "DLO", "STNE", "PAGS", "XP", "NU", "BILL", "TOST", "FLYW", "OUST",
  "JPM", "BAC", "WFC", "C", "GS", "MS", "SCHW", "BLK", "BX", "KKR",
  "APO", "ARES", "OWL", "TROW", "IVZ", "BEN", "AMG", "LPLA", "RJF", "SEIC",
  "USB", "PNC", "TFC", "MTB", "FITB", "KEY", "RF", "HBAN", "CFG", "ZION",
  "AXP", "COF", "DFS", "SYF", "ALLY", "NAVI", "SLM", "FCNCA", "WAL", "EWBC",
  "LLY", "UNH", "JNJ", "PFE", "ABBV", "MRK", "TMO", "ABT", "DHR", "BMY",
  "AMGN", "GILD", "VRTX", "REGN", "MRNA", "BNTX", "BIIB", "ILMN", "ISRG", "DXCM",
  "PODD", "ALGN", "IDXX", "IQV", "CRL", "RVTY", "TECH", "BIO", "A", "WAT",
  "ZBH", "SYK", "BSX", "MDT", "EW", "HCA", "CVS", "CI", "ELV", "HUM",
  "CNC", "MOH", "UHS", "SGRY", "DVA", "HIMS", "DOCS", "TDOC", "OSCR", "CLOV",
  "WMT", "COST", "TGT", "HD", "LOW", "DLTR", "DG", "FIVE", "OLLI", "BJ",
  "AMZN", "BABA", "JD", "PDD", "CPNG", "W", "OSTK", "REAL", "CVNA", "CARG",
  "AN", "LAD", "KMX", "SIG", "ULTA", "SEPHORA", "EL", "TPR", "RL", "PVH",
  "VFC", "HBI", "UAA", "LULU", "NKE", "DECK", "CROX", "SKX", "WWW", "SHOO",
  "GPS", "ANF", "AEO", "URBN", "EXPR", "TLRD", "BURL", "TJX", "ROST", "WSM",
  "RH", "BBWI", "WRBY", "FIGS", "BROS", "SBUX", "MCD", "CMG", "QSR", "WEN",
  "DPZ", "PZZA", "YUM", "WING", "SHAK", "JACK", "DNUT", "DIN", "CAKE", "EAT",
  "TXRH", "BLMN", "DRI", "CBRL", "PLAY", "SIX", "FUN", "SEAS", "CNK", "IMAX",
  "PEP", "KO", "MNST", "CELH", "KDP", "TAP", "SAM", "STZ", "DEO", "BF",
  "PM", "MO", "BTI", "TPB", "TLRY", "CGC", "ACB", "CRON", "SNDL", "VFF",
  "TSLA", "RIVN", "LCID", "NIO", "XPEV", "LI", "FSR", "NKLA", "RIDE", "WKHS",
  "GOEV", "FFIE", "MULN", "VFS", "PTRA", "ARVL", "LEV", "HYLN", "EVGO", "CHPT",
  "BLNK", "VLTA", "DCFC", "QS", "MVST", "SLDP", "FREY", "FREYR", "ENVX", "AMPX",
  "F", "GM", "TM", "HMC", "RACE", "STLA", "VWAGY", "BMWYY", "MBGAF", "POAHY",
  "BA", "LMT", "RTX", "NOC", "GD", "HII", "LHX", "TDG", "TXT", "HWM",
  "CAT", "DE", "PCAR", "CMI", "AGCO", "CNHI", "TEX", "ASTE", "OSK", "WNC",
  "GE", "HON", "MMM", "EMR", "ROK", "AME", "PH", "ITW", "NDSN", "MIDD",
  "URI", "HEES", "WSC", "ACM", "PWR", "EME", "FIX", "MTZ", "AROC", "TPC",
  "FDX", "UPS", "DAL", "UAL", "AAL", "LUV", "ALK", "JBLU", "SAVE", "HA",
  "JBHT", "KNX", "ODFL", "SAIA", "XPO", "GXO", "CHRW", "EXPD", "LSTR", "HUBG",
  "XOM", "CVX", "COP", "EOG", "SLB", "MPC", "VLO", "PSX", "OXY", "PXD",
  "DVN", "FANG", "HAL", "BKR", "NOV", "HP", "OII", "RIG", "VAL", "DO",
  "AR", "RRC", "EQT", "SWN", "CNX", "CTRA", "MTDR", "CHRD", "PR", "GPOR",
  "NEE", "DUK", "SO", "D", "AEP", "XEL", "SRE", "ED", "EIX", "WEC",
  "ES", "AWK", "ATO", "NI", "CMS", "DTE", "FE", "PPL", "EVRG", "AES",
  "PLUG", "FCEL", "BLDP", "BE", "BLOOM", "ENPH", "SEDG", "RUN", "NOVA", "ARRY",
  "SHLS", "MAXN", "SPWR", "FSLR", "CSIQ", "JKS", "DQ", "FLNC", "STEM", "GEVO",
  "AMT", "PLD", "EQIX", "CCI", "PSA", "DLR", "SBAC", "O", "WELL", "AVB",
  "EQR", "VTR", "ARE", "MAA", "UDR", "ESS", "CPT", "SUI", "ELS", "INVH",
  "MPW", "PEAK", "DOC", "HR", "OHI", "CTRE", "SBRA", "LTC", "NHI", "GMRE",
  "LIN", "APD", "SHW", "DD", "DOW", "PPG", "ECL", "EMN", "ALB", "FMC",
  "NEM", "FCX", "NUE", "STLD", "CLF", "X", "AA", "SCCO", "TECK", "RIO",
  "BHP", "VALE", "MT", "BTU", "ARCH", "CNR", "HCC", "AMR", "CEIX", "ARLP",
  "MP", "LAC", "LTHM", "SQM", "LTBR", "UUUU", "DNN", "NXE", "URG", "CCJ",
  "RKLB", "LUNR", "RDW", "ASTS", "BKSY", "SPIR", "PL", "VORB", "ASTR", "MNTS",
  "MSTR", "COIN", "MARA", "RIOT", "CLSK", "IREN", "HUT", "BITF", "BTBT", "CIFR",
  "EBON", "CORZ", "ARBK", "GREE", "BTDR", "WULF", "BTCM", "ETOR", "SATO", "DGHI",
  "IBIT", "GBTC", "FBTC", "ARKB", "BITB", "HODL", "BRRR", "BTCO", "DEFI", "EZBC",
  "ETHE", "ETHV", "CETH", "FETH", "ETHA", "MSTU", "MSTX", "MSTZ", "CONL", "GME",
  "AMC", "BB", "NOK", "BBBY", "KOSS", "EXPR", "NAKD", "SNDL", "TLRY", "WKHS",
  "CLOV", "WISH", "SOFI", "HOOD", "LCID", "RIVN", "DWAC", "PHUN", "MARK", "SPCE",
  "SKLZ", "PLBY", "BYND", "CRSR", "NNDM", "SPRT", "ATER", "IRNT", "SDC", "PROG",
  "BBIG", "TYDE", "CEI", "OCGN", "AGRX", "BIOR", "SAVA", "SRNE", "EDSA", "DJT",
  "SMFL", "RDDT", "LUNR", "SPY", "QQQ", "IWM", "DIA", "VOO", "VTI", "VTV",
  "VUG", "VGT", "VHT", "VNQ", "VWO", "VEA", "VIG", "SCHD", "JEPI", "JEPQ",
  "QYLD", "XYLD", "RYLD", "XLF", "XLE", "XLK", "XLV", "XLI", "XLY", "XLP",
  "XLU", "XLB", "XLRE", "IYR", "ITB", "XHB", "KRE", "KBE", "OIH", "XOP",
  "AMLP", "MLPA", "TAN", "ICLN", "PBW", "QCLN", "LIT", "BATT", "DRIV", "IDRV",
  "CARZ", "KOMP", "ARKK", "ARKW", "ARKF", "ARKG", "ARKQ", "ARKX", "PRNT", "IZRL",
  "MOON", "ROBO", "BOTZ", "HACK", "BUG", "CIBR", "WCLD", "SKYY", "CLOU", "IGV",
  "SOXX", "SMH", "PSI", "SOXL", "SOXS", "TQQQ", "SQQQ", "QLD", "QID", "SPXL",
  "SPXS", "SPXU", "UPRO", "TNA", "TZA", "LABU", "LABD", "FAS", "FAZ", "ERX",
  "ERY", "NUGT", "DUST", "JNUG", "JDST", "GUSH", "DRIP", "BOIL", "KOLD", "UCO",
  "SCO", "USO", "UNG", "UVXY", "SVXY", "VXX", "VIXY", "SVOL", "VIXM", "SPX",
  "NDX", "VIX", "RUT", "DJI", "CPI", "PPI", "PCE", "GDP", "NFP", "JOBS",
  "FOMC", "FED", "OPEC", "BTC", "ETH", "SOL", "XRP", "DOGE", "ADA", "AVAX",
  "DOT", "LINK", "MATIC", "SHIB", "LTC", "BCH", "UNI", "AAVE", "MKR", "ATOM",
  "FIL", "ICP", "APT"]

def v1Ignore : List String := [
  "ALL", "ARE", "BIG", "BUY", "CAN", "CEO", "DAY", "DID", "EOD", "FOR",
  "GET", "GOT", "HAS", "HER", "HIM", "HIS", "HOW", "ITS", "LET", "LOT",
  "LOW", "MAN", "MAY", "NEW", "NOT", "NOW", "OLD", "ONE", "OUR", "OUT",
  "OWN", "RUN", "SAW", "SAY", "SEE", "SET", "SHE", "THE", "TOO", "TRY",
  "TWO", "USE", "WAS", "WAY", "WHO", "WHY", "WIN", "WON", "YES", "YET",
  "YOU", "JUST", "KNOW", "LIKE", "LOOK", "MAKE", "MORE", "MOST", "MUCH", "MUST",
  "NEXT", "ONLY", "OVER", "SAME", "SELF", "SOME", "SUCH", "TELL", "THAN", "THAT",
  "THEM", "THEN", "THIS", "TIME", "VERY", "WANT", "WELL", "WHAT", "WHEN", "WILL",
  "WITH", "WORK", "YEAR", "BEEN", "COME", "DOES", "DONE", "EACH", "EVEN", "FIND",
  "GIVE", "GOOD", "HAVE", "HERE", "INTO", "KEEP", "LAST", "LONG", "TAKE", "THEIR",
  "THINK", "THOSE", "UNDER", "COULD", "WOULD", "ABOUT", "AFTER", "BEING", "COULD", "EVERY",
  "FIRST", "FOUND", "GREAT", "NEVER", "OTHER", "PLACE", "RIGHT", "STILL", "THINK", "WHERE",
  "WHICH", "WHILE", "WORLD", "THESE", "THING", "THROUGH", "LOL", "LMAO", "LMFAO", "OMG",
  "WTF", "IMO", "IMHO", "BTW", "FYI", "TBH", "IDK", "SMH", "NGL", "BRO",
  "SIS", "FAM", "ASAP", "TBD", "RN", "FR", "GG", "GL", "HF", "AFK",
  "BRB", "IRL", "GOAT", "FWIW", "TLDR", "TL", "ATH", "ATL", "AH", "PM",
  "IV", "OI", "RSI", "EMA", "SMA", "MACD", "VWAP", "OTM", "ITM", "ATM",
  "DTE", "VOL", "AVG", "MAX", "MIN", "BID", "ASK", "HIGH", "OPEN", "YOLO",
  "FOMO", "HODL", "MOON", "DIP", "RIP", "CALLS", "PUTS", "CALL", "PUT", "LONG",
  "SHORT", "SELL", "HOLD", "USA", "NYC", "LA", "UK", "EU", "US", "AI",
  "CEO", "CFO", "COO", "CTO", "IPO", "SEC", "IRS", "FBI", "CIA", "LOVE",
  "LIFE", "CARE", "HELP", "HOME", "HOPE", "KIND", "MIND", "REAL", "TRUE", "BABY",
  "BEST", "FAST", "FREE", "FULL", "GLAD", "GOES", "GONE", "HARD", "HUGE", "IDEA",
  "JOBS", "KIDS", "LATE", "LESS", "LIVE", "LOST", "LUCK", "MAIN", "NICE", "OPEN",
  "PAID", "PLAY", "POOR", "RISK", "SAFE", "SICK", "SURE", "TALK", "WAIT", "WALK",
  "WILD", "WISE", "GUYS", "NUTS", "KINDA", "ELON"]

def v1Ambiguous : List String := [
  "ALL", "ARE", "BIG", "CAN", "CAR", "DAY", "FUN", "FOR", "GAS", "GOT",
  "HAS", "HIT", "HOT", "KEY", "LOW", "MAN", "MEN", "NET", "NOW", "OLD",
  "ONE", "OUT", "OWN", "PAY", "RUN", "SEE", "SIX", "TEN", "THE", "TOP",
  "TRY", "TWO", "WAY", "WIN", "WON", "YOU", "ALLY", "APPS", "BALL", "BAND",
  "BILL", "BLUE", "BOOM", "CARS", "CASH", "COST", "DECK", "DISH", "DOOR", "EDIT",
  "EYES", "FACT", "FAST", "FIVE", "FLOW", "FOOD", "FORM", "FREE", "FUEL", "FULL",
  "FUND", "GAME", "GOOD", "GROW", "HAND", "HEAR", "HELP", "HERE", "HOME", "HOPE",
  "IDEA", "INFO", "JOBS", "KIDS", "KIND", "KNOW", "LAND", "LAST", "LAWS", "LEAD",
  "LIFE", "LINE", "LIVE", "LOOK", "LOVE", "LUCK", "MAKE", "MATH", "MEAN", "MEET",
  "MIND", "MOVE", "MUST", "NEAR", "NEED", "NEWS", "NEXT", "NICE", "OPEN", "PACK",
  "PAID", "PASS", "PATH", "PEAK", "PLAY", "PLUS", "POST", "PUSH", "RACE", "RARE",
  "RATE", "READ", "REAL", "REST", "RIDE", "RING", "RISE", "ROAD", "ROCK", "ROLL",
  "ROOF", "ROOM", "SAFE", "SAIL", "SALE", "SAVE", "SEED", "SELF", "SHIP", "SHOP",
  "SHOW", "SICK", "SIDE", "SIGN", "SITE", "SIZE", "SNAP", "SOLO", "SONG", "SOON",
  "SOUL", "SPOT", "STAR", "STAY", "STEP", "STOP", "TALK", "TALL", "TEAM", "TECH",
  "TELL", "TEST", "TEXT", "TICK", "TIES", "TIRE", "TOWN", "TREE", "TRIP", "TRUE",
  "TURN", "UNIT", "VERY", "VIEW", "VOID", "VOTE", "WAIT", "WALK", "WALL", "WARM",
  "WASH", "WAVE", "WAYS", "WEAR", "WEEK", "WELL", "WEST", "WIDE", "WIFE", "WILD",
  "WING", "WIRE", "WISE", "WISH", "WOOD", "WORD", "WORK", "WRAP", "YARD", "YEAR",
  "ZERO", "ZONE", "BROS", "MARK", "TELL", "HEAR", "DISH", "TRIP"]

def v1DollarOnly : List String := [
  "DO", "GO", "ON", "SO", "IT", "AT", "BE", "BY", "OR", "AN",
  "AS", "IF", "NO", "UP", "WE", "HE", "ME", "TV", "A", "I",
  "U", "AI", "KO", "CAT", "DOG"]

def v1Context : List String := [
  "buy", "buying", "bought", "sell", "selling", "sold", "calls", "call", "puts", "put",
  "shares", "stock", "stocks", "price", "trading", "trade", "long", "short", "bullish", "bearish",
  "options", "option", "squeeze", "moon", "pump", "dump", "dip", "rip", "breakout", "earnings",
  "er", "hold", "holding", "position", "entry", "exit", "target", "pt", "strike", "exp",
  "expiry", "weekly", "weeklies", "leaps", "spread", "portfolio", "bag", "bags", "bagholder", "avg",
  "average", "profit", "loss", "gain", "gains", "tendies", "yolo", "fomo", "chart", "ta",
  "support", "resistance", "volume", "float", "si", "iv", "oi", "gamma", "delta", "theta",
  "vega", "greeks", "ripping", "drilling", "tanking", "mooning", "printing", "sending", "weak", "strong",
  "green", "red", "bounce", "fade", "reversal", "oversold", "overbought", "undervalued", "overvalued", "cheap",
  "expensive", "dividend", "div", "yield", "pe", "eps", "revenue", "guidance", "upgrade", "downgrade",
  "analyst", "pt", "rating", "sector", "etf", "rally", "crash", "correction", "pullback", "consolidation",
  "channel", "ticker", "symbol", "stonk", "stonks", "invest", "investing", "investor"]

def v1Bullish : List String := [
  "buy", "buying", "bought", "long", "calls", "call", "bullish", "moon", "rocket", "pump",
  "breakout", "rip", "ripping", "squeeze", "green", "up", "higher", "strong", "support", "bounce",
  "reversal", "cheap", "dip", "accumulate", "load", "loading", "ath", "highs", "beat", "crush",
  "smash", "blast", "fly", "flying", "soar", "send", "print", "tendies", "gains", "lfg",
  "letsgoo", "bullrun", "parabolic"]

def v1Bearish : List String := [
  "sell", "selling", "sold", "short", "puts", "put", "bearish", "dump", "dumping", "crash",
  "crashing", "tank", "tanking", "drill", "drilling", "red", "down", "lower", "weak", "resistance",
  "rejection", "fade", "overvalued", "expensive", "bubble", "top", "topped", "rug", "rugged", "rekt",
  "trapped", "baghold", "bagholder", "dead", "cliff", "sink", "capitulate", "capitulation", "bloodbath", "slaughter"]

def v2CompanyNames : List (String × String) := [
  ("TESLA", "TSLA"), ("NVIDIA", "NVDA"), ("APPLE", "AAPL"), ("MICROSOFT", "MSFT"),
  ("AMAZON", "AMZN"), ("GOOGLE", "GOOGL"), ("ALPHABET", "GOOGL"), ("PALANTIR", "PLTR"),
  ("COINBASE", "COIN"), ("ROBINHOOD", "HOOD"), ("GAMESTOP", "GME"), ("SUPERMICRO", "SMCI"),
  ("BROADCOM", "AVGO"), ("MICRON", "MU"), ("QUALCOMM", "QCOM"), ("NETFLIX", "NFLX"),
  ("DISNEY", "DIS"), ("PAYPAL", "PYPL"), ("SNOWFLAKE", "SNOW"), ("CROWDSTRIKE", "CRWD"),
  ("ROCKETLAB", "RKLB"), ("ROCKET", "RKLB"), ("SPACEX", "SPACEX"), ("DATADOG", "DDOG"),
  ("SALESFORCE", "CRM"), ("ORACLE", "ORCL"), ("ADOBE", "ADBE"), ("INTEL", "INTC"),
  ("COSTCO", "COST"), ("WALMART", "WMT"), ("TARGET", "TGT"), ("STARBUCKS", "SBUX"),
  ("MCDONALDS", "MCD"), ("CHIPOTLE", "CMG"), ("BOEING", "BA"), ("LOCKHEED", "LMT")]

def v2Known : List String := [
  "AAPL", "MSFT", "GOOGL", "GOOG", "AMZN", "NVDA", "META", "TSLA", "BRK", "BRKB",
  "TSM", "AVGO", "LLY", "JPM", "UNH", "V", "MA", "XOM", "JNJ", "WMT",
  "AMD", "INTC", "MU", "QCOM", "TXN", "AMAT", "LRCX", "KLAC", "ADI", "MRVL",
  "NXPI", "MCHP", "ON", "SWKS", "QRVO", "MPWR", "SMCI", "ARM", "ASML", "SNPS",
  "CRM", "ORCL", "ADBE", "NOW", "INTU", "PANW", "CRWD", "SNOW", "DDOG", "ZS",
  "NET", "PLTR", "MDB", "ESTC", "TEAM", "OKTA", "ZM", "TWLO", "HUBS", "DOCU",
  "IONQ", "RGTI", "QBTS", "QUBT", "ARQQ", "SOUN", "BBAI", "AI", "UPST", "CXAI",
  "GME", "AMC", "BB", "NOK", "KOSS", "SNDL", "TLRY", "LCID", "RIVN", "DJT",
  "RDDT", "MSTR", "COIN", "MARA", "RIOT", "CLSK", "IREN", "HUT", "BITF", "IBIT",
  "GBTC", "FBTC", "ARKB", "ETHE", "BTC", "ETH", "SOL", "XRP", "DOGE", "ADA",
  "AVAX", "DOT", "LINK", "SHIB", "SPY", "QQQ", "IWM", "DIA", "VOO", "VTI",
  "ARKK", "SOXL", "TQQQ", "UVXY", "SPX", "NDX", "VIX", "RUT", "DJI"]

def v2Ignore : List String := [
  "ALL", "ARE", "BIG", "BUY", "CAN", "CEO", "DAY", "DID", "EOD", "FOR",
  "GET", "GOT", "HAS", "HER", "HIM", "HIS", "HOW", "ITS", "LET", "LOT",
  "LOW", "MAN", "MAY", "NEW", "NOT", "NOW", "OLD", "ONE", "OUR", "OUT",
  "OWN", "RUN", "SAW", "SAY", "SEE", "SET", "SHE", "THE", "TOO", "TRY",
  "TWO", "USE", "WAS", "WAY", "WHO", "WHY", "WIN", "WON", "YES", "YET",
  "YOU", "JUST", "KNOW", "LIKE", "LOOK", "MAKE", "MORE", "MOST", "MUCH", "LOL",
  "LMAO", "LMFAO", "OMG", "WTF", "IMO", "IMHO", "BTW", "FYI", "TBH", "IDK",
  "SMH", "NGL", "BRO", "SIS", "FAM", "ASAP", "GOAT", "ELON"]

def v2Ambiguous : List String := [
  "ALLY", "APPS", "BALL", "BAND", "BILL", "BLUE", "BOOM", "BROS", "CARS", "CASH",
  "COST", "DECK", "DISH", "DOOR", "EYES", "FAST", "FIVE", "FLOW", "FOOD", "FREE",
  "FUEL", "FULL", "FUND", "GAME", "GOOD", "GROW", "HAND", "HEAR", "HELP", "HOME",
  "HOPE", "IDEA", "INFO", "JOBS", "KIND", "KNOW", "LAND", "LAST", "LEAD", "LIFE",
  "LINE", "LIVE", "LOOK", "LOVE", "LUCK", "MAKE", "MARK", "MIND", "MOVE", "NEED",
  "NEWS", "NEXT", "NICE", "OPEN", "PACK", "PAID", "PASS", "PATH", "PEAK", "PLAY",
  "PLUS", "POST", "PUSH", "RACE", "RARE", "RATE", "READ", "REAL", "REST", "RIDE",
  "RING", "RISE", "ROAD", "ROCK", "ROLL", "ROOF", "ROOM", "SAFE", "SAIL", "SALE",
  "SAVE", "SEED", "SELF", "SHIP", "SHOP", "SHOW", "SICK", "SIDE", "SIGN", "SITE",
  "SIZE", "SNAP", "SOLO", "SONG", "SOON", "SOUL", "SPOT", "STAR", "STAY", "STEP",
  "STOP", "TALK", "TEAM", "TECH", "TELL", "TEST", "TEXT", "TRIP", "TRUE", "TURN",
  "VIEW", "VOTE", "WAIT", "WALK", "WALL", "WAVE", "WAYS", "WELL", "WILD", "WING",
  "WIRE", "WISE", "WISH", "WOOD", "WORD", "WORK", "YEAR", "ZERO", "ZONE"]

def v2DollarOnly : List String := [
  "DO", "GO", "ON", "SO", "IT", "AT", "BE", "BY", "OR", "AN",
  "AS", "IF", "NO", "UP", "WE", "HE", "ME", "TV", "A", "I",
  "U", "AI", "KO", "CAT"]

def v2Context : List String := [
  "buy", "buying", "bought", "sell", "selling", "sold", "calls", "call", "puts", "put",
  "shares", "stock", "stocks", "price", "trading", "trade", "long", "short", "bullish", "bearish",
  "options", "option", "squeeze", "moon", "pump", "dump", "dip", "rip", "breakout", "earnings",
  "hold", "holding", "position", "entry", "exit", "target", "strike", "portfolio"]

def v2Bullish : List String := [
  "buy", "buying", "bought", "long", "calls", "call", "bullish", "moon", "rocket", "pump",
  "breakout", "rip", "ripping", "squeeze", "green", "up", "higher", "strong", "support", "bounce",
  "reversal", "cheap", "dip", "accumulate", "load", "loading", "ath", "highs", "beat", "crush",
  "smash", "blast", "fly", "flying", "soar", "send", "print", "tendies", "gains", "lfg",
  "letsgoo", "parabolic"]

def v2Bearish : List String := [
  "sell", "selling", "sold", "short", "puts", "put", "bearish", "dump", "dumping", "crash",
  "crashing", "tank", "tanking", "drill", "drilling", "red", "down", "lower", "weak", "resistance",
  "rejection", "fade", "overvalued", "expensive", "bubble", "top", "topped", "rug", "rugged", "rekt",
  "trapped", "baghold", "bagholder", "dead", "cliff", "sink"]

/-!
### Ticker extraction (`extract_ticker`, both variants)
-/

/-- The dictionaries consulted by `extract_ticker`; the two variants differ
only in this data (and in whether the session-discovered set is a module
global or a parameter). -/
structure TickerCfg where
  companyNames : List (String × String)
  knownTickers : List String
  ignoreWords : List String
  ambiguous : List String
  dollarOnly : List String
  contextWords : List String

/-- The v1 (`chat_viz_backend.py`) dictionaries. -/
def v1TickerCfg : TickerCfg :=
  { companyNames := v1CompanyNames, knownTickers := v1Known, ignoreWords := v1Ignore,
    ambiguous := v1Ambiguous, dollarOnly := v1DollarOnly, contextWords := v1Context }

/-- The v2 (`chat_viz_backend_v2.py`) dictionaries. -/
def v2TickerCfg : TickerCfg :=
  { companyNames := v2CompanyNames, knownTickers := v2Known, ignoreWords := v2Ignore,
    ambiguous := v2Ambiguous, dollarOnly := v2DollarOnly, contextWords := v2Context }

/-- `has_stock_context(text)`: some lowercased word token of the text lies in
the stock-context lexicon (Python: `bool(set(words) & STOCK_CONTEXT_WORDS)`). -/
def has_stock_context (cfg : TickerCfg) (text : String) : Bool :=
  (wordTokens (text.data.map lowerChar)).any (fun w => cfg.contextWords.contains w)

/-- `re.findall(r'\b([A-Z]{2,5})\b', text_upper)`: exactly the word tokens of
the uppercased text that consist solely of uppercase letters and have length
2–5 (a token containing a digit or underscore defeats the inner `\b`s at
every starting offset, and a longer all-letter token defeats the greedy
quantifier with its trailing `\b`). -/
def tickerCandidates (tu : List Char) : List String :=
  (wordTokens tu).filter (fun w => 2 ≤ w.length && w.length ≤ 5 && w.data.all isUpperLetter)

/-- Rules 2-4 of `extract_ticker` — company-name mapping (dictionary
insertion order, first match wins), first unambiguous known ticker, then
first ambiguous known ticker provided the text has stock context.  This is
the code path taken when rule 1 (the `$` marker) did not return. -/
def extract_rest (cfg : TickerCfg) (text : String) (disc : List String) : Option String :=
  let tu := text.data.map upperChar
  match cfg.companyNames.find? (fun p => (wordTokens tu).contains p.1) with
  | some p => some p.2
  | none =>
      let words := tickerCandidates tu
      match words.find? (fun w => !cfg.ignoreWords.contains w && !cfg.dollarOnly.contains w &&
          (cfg.knownTickers.contains w || disc.contains w) && !cfg.ambiguous.contains w) with
      | some w => some w
      | none =>
          if has_stock_context cfg text then
            words.find? (fun w => !cfg.ignoreWords.contains w && !cfg.dollarOnly.contains w &&
              (cfg.knownTickers.contains w || disc.contains w) && cfg.ambiguous.contains w)
          else none

/-- `extract_ticker(text)` (v1) / `extract_ticker(text, session_discovered)`
(v2): the extracted topic together with the updated session-discovered set.
The v1 variant keeps that set in a module global and the v2 variant passes
it in; both add to it only in rule 1's returning branch, so the pair-valued
embedding covers both.  If the leftmost `$`-token exists but is an ignore
word, the code falls through to rules 2-4 without looking at later
`$`-tokens. -/
def extract_ticker (cfg : TickerCfg) (text : String) (disc : List String) :
    Option String × List String :=
  let tu := text.data.map upperChar
  match dollarScan tu with
  | some t =>
      if !cfg.ignoreWords.contains t then
        (some t, if disc.contains t then disc else t :: disc)
      else (extract_rest cfg text disc, disc)
  | none => (extract_rest cfg text disc, disc)

/-!
### Sentiment (`analyze_sentiment`, both variants)
-/

/-- The five positive emoji glyphs whose presence `analyze_sentiment` tests
with one combined `or` (the source file stores the literals in a
doubly-encoded form; these are the intended code points, and a one-character
pattern's substring test is character membership). -/
def posGlyphs : List Char := ['🚀', '📈', '💚', '🟢', '🔥']

/-- The five negative emoji glyphs, tested the same way. -/
def negGlyphs : List Char := ['📉', '💔', '🔴', '🩸', '💀']

/-- `analyze_sentiment(text)`: count the distinct lowercased word tokens
lying in each lexicon (Python: `len(set(words) & LEXICON)`, counted here
from the lexicon side, which is duplicate-free), add 2 to the bullish count
if at least one positive glyph occurs in the (raw) text and 2 to the
bearish count if at least one negative glyph occurs, and compare
strictly. -/
def analyze_sentiment (bullLex bearLex : List String) (text : String) : String :=
  let words := wordTokens (text.data.map lowerChar)
  let bullish0 := (bullLex.filter (fun w => words.contains w)).length
  let bearish0 := (bearLex.filter (fun w => words.contains w)).length
  let bullish := if posGlyphs.any (fun c => text.data.contains c) then bullish0 + 2 else bullish0
  let bearish := if negGlyphs.any (fun c => text.data.contains c) then bearish0 + 2 else bearish0
  if bearish < bullish then "bullish"
  else if bullish < bearish then "bearish"
  else "neutral"

/-!
### Spam detection (`detect_spam`, both variants)
-/

/-- The per-text observations `detect_spam` makes of the raw message text.
Each field is a deterministic function of the text, computed by the Python
runtime: `textHash` is `hash(text.lower().strip())`; `linkMatch`,
`pumpMatch` and `cryptoMatch` are the `search` outcomes of the three
compiled spam regexes; `alphaCount` / `upperCount` count the alphabetic and
the uppercase alphabetic characters; `repMatch` is the outcome of
`re.search` for a character repeated five or more times consecutively;
`emojiCount` counts the characters present in the `emoji` package's data
table.  No claim settled below depends on how these observations are
produced from the text, only on how the detector combines them. -/
structure TextSig where
  textHash : Int
  linkMatch : Bool
  pumpMatch : Bool
  cryptoMatch : Bool
  alphaCount : Nat
  upperCount : Nat
  repMatch : Bool
  emojiCount : Nat
deriving DecidableEq

/-- The two constants in which the variants' detectors differ: the v2
rapid-fire rule requires more prior messages (5 instead of 3) and
contributes a lower confidence (0.6 instead of 0.8). -/
structure SpamCfg where
  rapidMin : Nat
  rapidConf : ℚ
deriving DecidableEq

/-- The v1 rapid-fire profile. -/
def v1SpamCfg : SpamCfg := ⟨3, 4/5⟩

/-- The v2 rapid-fire profile. -/
def v2SpamCfg : SpamCfg := ⟨5, 3/5⟩

/-- `HISTORY_WINDOW = 60` seconds (both variants). -/
def HISTORY_WINDOW : ℚ := 60

/-- `MAX_HISTORY_PER_USER = 20` entries (both variants). -/
def MAX_HISTORY_PER_USER : Nat := 20

/-- `clean_history(author, current_time)`: keep the entries younger than the
trailing window, then keep only the last `MAX_HISTORY_PER_USER` of those
(Python `[...][-MAX_HISTORY_PER_USER:]`). -/
def clean_history (now : ℚ) (hist : List (ℚ × Int)) : List (ℚ × Int) :=
  let kept := hist.filter (fun e => decide (now - e.1 < HISTORY_WINDOW))
  kept.drop (kept.length - MAX_HISTORY_PER_USER)

/-- Rule 1's test: the hash of the current text occurs among the hashes of
the author's (cleaned) history. -/
def dupHit (sig : TextSig) (hist : List (ℚ × Int)) : Bool :=
  (hist.map Prod.snd).contains sig.textHash

/-- Rule 2's test: at least `rapidMin` recorded timestamps lie within the
trailing 10 seconds. -/
def rapidHit (cfg : SpamCfg) (now : ℚ) (hist : List (ℚ × Int)) : Bool :=
  decide (cfg.rapidMin ≤ ((hist.map Prod.fst).filter (fun ts => decide (now - ts < 10))).length)

/-- Rule 6's test: at least 10 alphabetic characters of which strictly more
than 70% are uppercase. -/
def capsHit (sig : TextSig) : Bool :=
  decide (10 ≤ sig.alphaCount) &&
    decide ((7 : ℚ)/10 < (sig.upperCount : ℚ) / (sig.alphaCount : ℚ))

/-- Rule 8's test: strictly more than 10 emoji characters. -/
def emojiHit (sig : TextSig) : Bool := decide (10 < sig.emojiCount)

/-- Python's binary `max` on rationals, written with an explicit comparison
so that it evaluates by kernel reduction. -/
def qmax (a b : ℚ) : ℚ := if a ≤ b then b else a

/-- Python's binary `min`, likewise. -/
def qmin (a b : ℚ) : ℚ := if a ≤ b then a else b

/-- The sequential reason/confidence accumulation of `detect_spam`'s rule
section: starting from `([], 0.0)`, each of the eight rules in source order
appends its reason label and raises the confidence to at least its rule
confidence when its test fired.  `rc` is the rapid-fire rule's confidence
(0.8 in v1, 0.6 in v2). -/
def spamSeq (rc : ℚ) (b1 b2 b3 b4 b5 b6 b7 b8 : Bool) : List String × ℚ :=
  let r0 : List String × ℚ := ([], 0)
  let r1 := if b1 then (r0.1 ++ ["duplicate"], qmax r0.2 (9/10)) else r0
  let r2 := if b2 then (r1.1 ++ ["rapid_fire"], qmax r1.2 rc) else r1
  let r3 := if b3 then (r2.1 ++ ["promo_link"], qmax r2.2 (17/20)) else r2
  let r4 := if b4 then (r3.1 ++ ["pump_promo"], qmax r3.2 (4/5)) else r3
  let r5 := if b5 then (r4.1 ++ ["crypto_scam"], qmax r4.2 (19/20)) else r4
  let r6 := if b6 then (r5.1 ++ ["excessive_caps"], qmax r5.2 (1/2)) else r5
  let r7 := if b7 then (r6.1 ++ ["repetitive_chars"], qmax r6.2 (2/5)) else r6
  let r8 := if b8 then (r7.1 ++ ["excessive_emojis"], qmax r7.2 (1/2)) else r7
  r8

/-- The independently triggered rules in source order, each paired with its
rule confidence — the "fired rule" list that the specification's
combination invariant speaks about. -/
def firedList (rc : ℚ) (b1 b2 b3 b4 b5 b6 b7 b8 : Bool) : List (String × ℚ) :=
  (if b1 then [("duplicate", (9:ℚ)/10)] else []) ++
  (if b2 then [("rapid_fire", rc)] else []) ++
  (if b3 then [("promo_link", (17:ℚ)/20)] else []) ++
  (if b4 then [("pump_promo", (4:ℚ)/5)] else []) ++
  (if b5 then [("crypto_scam", (19:ℚ)/20)] else []) ++
  (if b6 then [("excessive_caps", (1:ℚ)/2)] else []) ++
  (if b7 then [("repetitive_chars", (2:ℚ)/5)] else []) ++
  (if b8 then [("excessive_emojis", (1:ℚ)/2)] else [])

/-- The rules fired by a given call to `detect_spam` (the rule tests are run
against the cleaned history, as in the code). -/
def firedRules (cfg : SpamCfg) (sig : TextSig) (now : ℚ) (hist : List (ℚ × Int)) :
    List (String × ℚ) :=
  let h := clean_history now hist
  firedList cfg.rapidConf (dupHit sig h) (rapidHit cfg now h) sig.linkMatch sig.pumpMatch
    sig.cryptoMatch (capsHit sig) sig.repMatch (emojiHit sig)

/-- The dictionary `detect_spam` returns. -/
structure SpamVerdict where
  is_spam : Bool
  reason : Option String
  reasons : List String
  confidence : ℚ
deriving DecidableEq

/-- The weak-signal combination at the end of `detect_spam`: add 0.2 to the
accumulated confidence (capped at 0.75) exactly when at least two reasons
fired and the running confidence is below 0.7. -/
def spamBoost (rs : List String × ℚ) : ℚ :=
  if 2 ≤ rs.1.length ∧ rs.2 < 7/10 then qmin (3/4) (rs.2 + 1/5) else rs.2

/-- `detect_spam(text, author)`: clean the author's history, run the eight
rule tests sequentially, append the current `(timestamp, hash)` entry to the
history, apply the weak-signal boost, and return the verdict together with
the author's updated history.  Note the appended entry comes after the
cleaning, so the returned history can hold one entry more than the cap. -/
def detect_spam (cfg : SpamCfg) (sig : TextSig) (now : ℚ) (hist : List (ℚ × Int)) :
    SpamVerdict × List (ℚ × Int) :=
  let h := clean_history now hist
  let rs := spamSeq cfg.rapidConf (dupHit sig h) (rapidHit cfg now h) sig.linkMatch
    sig.pumpMatch sig.cryptoMatch (capsHit sig) sig.repMatch (emojiHit sig)
  ({ is_spam := decide ((7:ℚ)/10 ≤ spamBoost rs), reason := rs.1.head?, reasons := rs.1,
     confidence := spamBoost rs }, h ++ [(now, sig.textHash)])

/-- The maximum of a list of rule confidences, 0 when none fired. -/
def maxConf (l : List ℚ) : ℚ := l.foldr qmax 0

/-- The specification's combination invariant, as a function of the fired
rule confidences: the maximum, boosted by 0.2 (capped at 0.75) exactly when
at least two rules fired and the maximum is below 0.7. -/
def spamCombine (l : List ℚ) : ℚ :=
  if 2 ≤ l.length ∧ maxConf l < 7/10 then qmin (3/4) (maxConf l + 1/5) else maxConf l

/-- The sequential accumulation agrees with the fired-rule list view: the
reason list is the fired rules' labels and the running confidence is the
maximum of the fired rules' confidences. -/
theorem spamSeq_eq_firedList (rc : ℚ) (hrc : rc = 4/5 ∨ rc = 3/5) :
    ∀ b1 b2 b3 b4 b5 b6 b7 b8 : Bool,
      spamSeq rc b1 b2 b3 b4 b5 b6 b7 b8 =
        ((firedList rc b1 b2 b3 b4 b5 b6 b7 b8).map Prod.fst,
         maxConf ((firedList rc b1 b2 b3 b4 b5 b6 b7 b8).map Prod.snd)) := by
  rcases hrc with rfl | rfl <;> with_unfolding_all decide

/-!
### Message processing (`process_message`, both variants)
-/

/-- Lookup in a Python dict modelled as an insertion-ordered association
list. -/
def alistFind {α : Type} (m : List (String × α)) (k : String) : Option α :=
  (m.find? (fun p => p.1 == k)).map Prod.snd

/-- Python dict store `m[k] = v`: overwrite the binding in place, or append
a new binding at the end. -/
def alistSet {α : Type} : List (String × α) → String → α → List (String × α)
  | [], k, v => [(k, v)]
  | p :: rest, k, v => if p.1 == k then (k, v) :: rest else p :: alistSet rest k v

/-- The author's history list as seen by `detect_spam`: a missing author
behaves as an empty history (every membership test is then false and the
append creates the entry). -/
def histGet (m : List (String × List (ℚ × Int))) (a : String) : List (ℚ × Int) :=
  (alistFind m a).getD []

/-- A raw chat message as delivered by the chat-source adapter: text, author
name and the author's privilege flags. -/
structure ChatMsg where
  message : String
  author : String
  isChatOwner : Bool
  isChatModerator : Bool
deriving DecidableEq

/-- The classified message dictionary built by `process_message`.  The
Python dict carries an ISO timestamp string; it is modelled as the rational
arrival time. -/
structure MsgResult where
  text : String
  author : String
  timestamp : ℚ
  topic : Option String
  sentiment : String
  isQuestion : Bool
  vibe : Option String
  spam : SpamVerdict
deriving DecidableEq

/-- The v1 module-global mutable state read and written by
`process_message`: the per-author spam history and the session-discovered
ticker set. -/
structure V1State where
  user_message_history : List (String × List (ℚ × Int))
  session_discovered : List String
deriving DecidableEq

/-- v1 `process_message(chat_msg)`: normalise the text
(`convert_emoji_codes`, abstracted as `normalize`), run spam detection — on
every author, this variant never reads the privilege flags — then extract
the topic, and compute sentiment only when a topic was extracted.  `sigOf`
abstracts the text observations fed to the detector and `isQ` the question
regex. -/
def process_message_v1 (normalize : String → String) (sigOf : String → TextSig)
    (isQ : String → Bool) (msg : ChatMsg) (now : ℚ) (st : V1State) : MsgResult × V1State :=
  let text := normalize msg.message
  let (sv, h) := detect_spam v1SpamCfg (sigOf text) now (histGet st.user_message_history msg.author)
  let (topic, disc) := extract_ticker v1TickerCfg text st.session_discovered
  ({ text := text, author := msg.author, timestamp := now, topic := topic,
     sentiment := match topic with
       | some _ => analyze_sentiment v1Bullish v1Bearish text
       | none => "neutral",
     isQuestion := isQ text, vibe := none, spam := sv },
   { user_message_history := alistSet st.user_message_history msg.author h,
     session_discovered := disc })

/-- The per-video session state of the v2 variant (`get_video_state`). -/
structure VideoState where
  pulse_buffer : List MsgResult
  user_message_history : List (String × List (ℚ × Int))
  session_discovered : List String
deriving DecidableEq

/-- v2 `process_message(chat_msg, video_state)`: as v1, except that a
privileged author (channel owner or moderator) bypasses the spam detector
with a fixed clean verdict and no history write. -/
def process_message_v2 (normalize : String → String) (sigOf : String → TextSig)
    (isQ : String → Bool) (msg : ChatMsg) (now : ℚ) (st : VideoState) :
    MsgResult × VideoState :=
  let text := normalize msg.message
  let is_privileged := msg.isChatOwner || msg.isChatModerator
  let (sv, hist) :=
    if is_privileged then
      ({ is_spam := false, reason := none, reasons := [], confidence := 0 },
       st.user_message_history)
    else
      let (v, h) := detect_spam v2SpamCfg (sigOf text) now
        (histGet st.user_message_history msg.author)
      (v, alistSet st.user_message_history msg.author h)
  let (topic, disc) := extract_ticker v2TickerCfg text st.session_discovered
  ({ text := text, author := msg.author, timestamp := now, topic := topic,
     sentiment := match topic with
       | some _ => analyze_sentiment v2Bullish v2Bearish text
       | none => "neutral",
     isQuestion := isQ text, vibe := none, spam := sv },
   { st with user_message_history := hist, session_discovered := disc })

/-!
### Vibe classification (`classify_vibe_batch` and its call site)
-/

/-- `VIBE_BATCH_SIZE = 3` of the v2 production variant. -/
def VIBE_BATCH_SIZE_v2 : Nat := 3

/-- The v1 local variant's hard-coded slice bound `messages[:10]`. -/
def VIBE_BATCH_SIZE_v1 : Nat := 10

/-- `VIBE_CHECK_INTERVAL = 30` seconds in the v2 production variant. -/
def VIBE_CHECK_INTERVAL_v2 : ℚ := 30

/-- The v1 local variant's vibe interval, 3 seconds. -/
def VIBE_CHECK_INTERVAL_v1 : ℚ := 3

/-- The per-message update `classify_vibe_batch` performs.  `vibeOf` models
`classify_vibe_single` — an LLM call answering `funny`, `uplifting`, or
nothing (a `none` answer, timeout or error); the vibe field is set only for
the two accepted labels. -/
def updVibe (vibeOf : String → Option String) (m : MsgResult) : MsgResult :=
  match vibeOf m.text with
  | some v => if v == "funny" || v == "uplifting" then { m with vibe := some v } else m
  | none => m

/-- `classify_vibe_batch(messages)`: query and mutate only `messages[:K]`
(the zip of that slice with the gathered results), returning the whole
list. -/
def classify_vibe_batch (K : Nat) (vibeOf : String → Option String)
    (messages : List MsgResult) : List MsgResult :=
  if messages.isEmpty then messages
  else (messages.take K).map (updVibe vibeOf) ++ messages.drop K

/-- The scraper loop's vibe pass over the pending batch: the call site
passes the slice `vibe_batch[-20:]` (the trailing 20 messages); since the
Python dicts are mutated in place, the batch after the pass is its
untouched prefix followed by the classified slice. -/
def vibePass (K : Nat) (vibeOf : String → Option String) (batch : List MsgResult) :
    List MsgResult :=
  batch.take (batch.length - 20) ++ classify_vibe_batch K vibeOf (batch.drop (batch.length - 20))

/-- The claim's reading of the vibe pass, stated for comparison with
`vibePass`: exactly the most recent `K` messages of the pending batch are
queried. -/
def vibePassSpec (K : Nat) (vibeOf : String → Option String) (batch : List MsgResult) :
    List MsgResult :=
  batch.take (batch.length - K) ++ (batch.drop (batch.length - K)).map (updVibe vibeOf)

/-- The loop guard for running a vibe pass:
`current_time - last_vibe_check >= VIBE_CHECK_INTERVAL and vibe_batch`. -/
def vibeDue (interval now lastCheck : ℚ) (batch : List MsgResult) : Bool :=
  decide (interval ≤ now - lastCheck) && !batch.isEmpty

/-!
### v2 session registry and scraper lifecycle
-/

/-- The process-wide maps of the v2 backend: subscribers per video
(`video_clients`, client connections numbered), the running scraper tasks
(`active_scrapers`, modelled by their keys), and the per-video session
state (`video_state`). -/
structure Server where
  video_clients : List (String × List Nat)
  active_scrapers : List String
  video_state : List (String × VideoState)
deriving DecidableEq

/-- `get_video_state(video_id)`: return the stored state, creating a fresh
empty one only when the video has none stored. -/
def get_video_state (S : Server) (vid : String) : VideoState × Server :=
  match alistFind S.video_state vid with
  | some st => (st, S)
  | none =>
      let st : VideoState := { pulse_buffer := [], user_message_history := [],
                               session_discovered := [] }
      (st, { S with video_state := alistSet S.video_state vid st })

/-- First action of the SUBSCRIBE branch of `handle_client`: drop the
client from its previous video's subscriber set, when that video is
tracked.  `prev` is the handler's `client_video_id` local variable. -/
def dropPrev (S : Server) (ws : Nat) (prev : Option String) : Server :=
  match prev with
  | some pv =>
      match alistFind S.video_clients pv with
      | some l =>
          { S with video_clients :=
              alistSet S.video_clients pv (l.filter (fun w => !(w == ws))) }
      | none => S
  | none => S

/-- Second action: add the client to the new video's subscriber set,
creating the set when absent (`video_clients[vid] = set()` then `.add`). -/
def addClient (S : Server) (ws : Nat) (vid : String) : Server :=
  let cur := (alistFind S.video_clients vid).getD []
  { S with video_clients :=
      alistSet S.video_clients vid (if cur.contains ws then cur else cur ++ [ws]) }

/-- Third action: start a scraper task only when none is active for the
video (`if video_id not in active_scrapers: create_task`). -/
def ensureScraper (S : Server) (vid : String) : Server :=
  if S.active_scrapers.contains vid then S
  else { S with active_scrapers := S.active_scrapers ++ [vid] }

/-- The SUBSCRIBE branch of `handle_client`, in source order. -/
def subscribeStep (S : Server) (ws : Nat) (prev : Option String) (vid : String) : Server :=
  ensureScraper (addClient (dropPrev S ws prev) ws vid) vid

/-- The UNSUBSCRIBE branch of `handle_client` (and the disconnect cleanup):
discard the client from the video's subscriber set when tracked. -/
def unsubscribeStep (S : Server) (ws : Nat) (vid : String) : Server :=
  match alistFind S.video_clients vid with
  | some l =>
      { S with video_clients :=
          alistSet S.video_clients vid (l.filter (fun w => !(w == ws))) }
  | none => S

/-- The emptiness check at the head of the scraper's polling loop: keep
running iff the video still has a nonempty subscriber set. -/
def scraperPollGate (S : Server) (vid : String) : Bool :=
  match alistFind S.video_clients vid with
  | some l => !l.isEmpty
  | none => false

/-- The scraper's `finally` block: `del active_scrapers[video_id]` — and
nothing else; in particular `video_state[video_id]` is left in place. -/
def scraperStop (S : Server) (vid : String) : Server :=
  { S with active_scrapers := S.active_scrapers.filter (fun v => !(v == vid)) }

/-- One head-of-loop poll of the scraper: break out of the loop (running
the `finally` cleanup) when the gate fails, continue otherwise. -/
def scraperLoopCheck (S : Server) (vid : String) : Server × Bool :=
  if scraperPollGate S vid then (S, true) else (scraperStop S vid, false)

/-- Processing of one chat message inside the scraper loop: run
`process_message` against the session's state and append the classified
message to the session's pulse buffer. -/
def scraperProcess (normalize : String → String) (sigOf : String → TextSig)
    (isQ : String → Bool) (S : Server) (vid : String) (msg : ChatMsg) (now : ℚ) : Server :=
  let (st, S1) := get_video_state S vid
  let (res, st1) := process_message_v2 normalize sigOf isQ msg now st
  let st2 := { st1 with pulse_buffer := st1.pulse_buffer ++ [res] }
  { S1 with video_state := alistSet S1.video_state vid st2 }

/-!
### Helper lemmas
-/

/-- Applying the boost to the fired-list view of the accumulator gives the
specification's combination function. -/
theorem boost_combine (L : List (String × ℚ)) :
    spamBoost (L.map Prod.fst, maxConf (L.map Prod.snd)) = spamCombine (L.map Prod.snd) := by
  simp [spamBoost, spamCombine, List.length_map]

/-!
### Claims
-/

/-- C1: for every message scored by the spam detector (either variant), the
returned confidence is the maximum of the confidences of all independently
triggered rules, boosted by +0.2 (capped at 0.75) exactly when at least two
distinct reasons fired and the running confidence was below 0.7 — this is
`spamCombine` over the fired rules — the returned reason list is exactly
the fired rules' labels, and the returned `is_spam` flag is true if and
only if the final confidence is at least 0.7. -/
theorem detect_spam_combination :
    (∀ (sig : TextSig) (now : ℚ) (hist : List (ℚ × Int)),
        (detect_spam v1SpamCfg sig now hist).1.confidence
            = spamCombine ((firedRules v1SpamCfg sig now hist).map Prod.snd)
        ∧ (detect_spam v1SpamCfg sig now hist).1.reasons
            = (firedRules v1SpamCfg sig now hist).map Prod.fst
        ∧ ((detect_spam v1SpamCfg sig now hist).1.is_spam = true ↔
            (7:ℚ)/10 ≤ (detect_spam v1SpamCfg sig now hist).1.confidence))
  ∧ (∀ (sig : TextSig) (now : ℚ) (hist : List (ℚ × Int)),
        (detect_spam v2SpamCfg sig now hist).1.confidence
            = spamCombine ((firedRules v2SpamCfg sig now hist).map Prod.snd)
        ∧ (detect_spam v2SpamCfg sig now hist).1.reasons
            = (firedRules v2SpamCfg sig now hist).map Prod.fst
        ∧ ((detect_spam v2SpamCfg sig now hist).1.is_spam = true ↔
            (7:ℚ)/10 ≤ (detect_spam v2SpamCfg sig now hist).1.confidence)) := by
  constructor <;> intro sig now hist
  · have h := spamSeq_eq_firedList (4/5) (Or.inl rfl) (dupHit sig (clean_history now hist))
      (rapidHit v1SpamCfg now (clean_history now hist)) sig.linkMatch sig.pumpMatch
      sig.cryptoMatch (capsHit sig) sig.repMatch (emojiHit sig)
    have hf : firedRules v1SpamCfg sig now hist
        = firedList (4/5) (dupHit sig (clean_history now hist))
            (rapidHit v1SpamCfg now (clean_history now hist)) sig.linkMatch sig.pumpMatch
            sig.cryptoMatch (capsHit sig) sig.repMatch (emojiHit sig) := rfl
    refine ⟨?_, ?_, ?_⟩
    · show spamBoost (spamSeq (4/5) (dupHit sig (clean_history now hist))
          (rapidHit v1SpamCfg now (clean_history now hist)) sig.linkMatch sig.pumpMatch
          sig.cryptoMatch (capsHit sig) sig.repMatch (emojiHit sig))
        = spamCombine ((firedRules v1SpamCfg sig now hist).map Prod.snd)
      rw [h, hf, boost_combine]
    · show (spamSeq (4/5) (dupHit sig (clean_history now hist))
          (rapidHit v1SpamCfg now (clean_history now hist)) sig.linkMatch sig.pumpMatch
          sig.cryptoMatch (capsHit sig) sig.repMatch (emojiHit sig)).1
        = (firedRules v1SpamCfg sig now hist).map Prod.fst
      rw [h, hf]
    · exact decide_eq_true_iff
  · have h := spamSeq_eq_firedList (3/5) (Or.inr rfl) (dupHit sig (clean_history now hist))
      (rapidHit v2SpamCfg now (clean_history now hist)) sig.linkMatch sig.pumpMatch
      sig.cryptoMatch (capsHit sig) sig.repMatch (emojiHit sig)
    have hf : firedRules v2SpamCfg sig now hist
        = firedList (3/5) (dupHit sig (clean_history now hist))
            (rapidHit v2SpamCfg now (clean_history now hist)) sig.linkMatch sig.pumpMatch
            sig.cryptoMatch (capsHit sig) sig.repMatch (emojiHit sig) := rfl
    refine ⟨?_, ?_, ?_⟩
    · show spamBoost (spamSeq (3/5) (dupHit sig (clean_history now hist))
          (rapidHit v2SpamCfg now (clean_history now hist)) sig.linkMatch sig.pumpMatch
          sig.cryptoMatch (capsHit sig) sig.repMatch (emojiHit sig))
        = spamCombine ((firedRules v2SpamCfg sig now hist).map Prod.snd)
      rw [h, hf, boost_combine]
    · show (spamSeq (3/5) (dupHit sig (clean_history now hist))
          (rapidHit v2SpamCfg now (clean_history now hist)) sig.linkMatch sig.pumpMatch
          sig.cryptoMatch (capsHit sig) sig.repMatch (emojiHit sig)).1
        = (firedRules v2SpamCfg sig now hist).map Prod.fst
      rw [h, hf]
    · exact decide_eq_true_iff


/-- C3 counterexample: three distinct messages from one author at times 0,
1 and 2 — all inside a 10-second window — and the third message's verdict
does not carry `rapid_fire` (its reason list is empty and its confidence is
0).  The v1 rule only fires when the cleaned history already holds at least
3 entries inside the window, which first happens on the fourth message of a
burst; v2 needs 5 prior entries and contributes 0.6, not 0.8. -/
theorem rapid_fire_third_message_refuted :
    "rapid_fire" ∉ (detect_spam v1SpamCfg ⟨3, false, false, false, 0, 0, false, 0⟩ 2
      ((detect_spam v1SpamCfg ⟨2, false, false, false, 0, 0, false, 0⟩ 1
        ((detect_spam v1SpamCfg ⟨1, false, false, false, 0, 0, false, 0⟩ 0 []).2)).2)).1.reasons
    ∧ (detect_spam v1SpamCfg ⟨3, false, false, false, 0, 0, false, 0⟩ 2
      ((detect_spam v1SpamCfg ⟨2, false, false, false, 0, 0, false, 0⟩ 1
        ((detect_spam v1SpamCfg ⟨1, false, false, false, 0, 0, false, 0⟩ 0 []).2)).2)).1.confidence = 0 := by
  with_unfolding_all decide

/-- C3 (amended): scoring a message whose author's cleaned history already
holds at least `rapidMin` timestamps within the trailing 10 seconds — i.e.
the 4th message of a 10-second burst in v1, the 6th in v2 — triggers
`rapid_fire`, with rule confidence 0.8 in v1 and 0.6 in v2. -/
theorem rapid_fire_on_fourth :
    (∀ (sig : TextSig) (now : ℚ) (hist : List (ℚ × Int)),
        3 ≤ (((clean_history now hist).map Prod.fst).filter
              (fun ts => decide (now - ts < 10))).length →
        "rapid_fire" ∈ (detect_spam v1SpamCfg sig now hist).1.reasons
        ∧ ("rapid_fire", (4:ℚ)/5) ∈ firedRules v1SpamCfg sig now hist)
  ∧ (∀ (sig : TextSig) (now : ℚ) (hist : List (ℚ × Int)),
        5 ≤ (((clean_history now hist).map Prod.fst).filter
              (fun ts => decide (now - ts < 10))).length →
        "rapid_fire" ∈ (detect_spam v2SpamCfg sig now hist).1.reasons
        ∧ ("rapid_fire", (3:ℚ)/5) ∈ firedRules v2SpamCfg sig now hist) := by
  constructor <;> intro sig now hist hcount
  · have hb : rapidHit v1SpamCfg now (clean_history now hist) = true := by
      unfold rapidHit
      simpa using hcount
    have hpair : ("rapid_fire", (4:ℚ)/5) ∈ firedList (4/5)
        (dupHit sig (clean_history now hist)) true sig.linkMatch sig.pumpMatch
        sig.cryptoMatch (capsHit sig) sig.repMatch (emojiHit sig) := by
      simp [firedList]
    have hf : firedRules v1SpamCfg sig now hist
        = firedList (4/5) (dupHit sig (clean_history now hist))
            (rapidHit v1SpamCfg now (clean_history now hist)) sig.linkMatch sig.pumpMatch
            sig.cryptoMatch (capsHit sig) sig.repMatch (emojiHit sig) := rfl
    have hs := spamSeq_eq_firedList (4/5) (Or.inl rfl) (dupHit sig (clean_history now hist))
      (rapidHit v1SpamCfg now (clean_history now hist)) sig.linkMatch sig.pumpMatch
      sig.cryptoMatch (capsHit sig) sig.repMatch (emojiHit sig)
    constructor
    · show "rapid_fire" ∈ (spamSeq (4/5) (dupHit sig (clean_history now hist))
        (rapidHit v1SpamCfg now (clean_history now hist)) sig.linkMatch sig.pumpMatch
        sig.cryptoMatch (capsHit sig) sig.repMatch (emojiHit sig)).1
      rw [hs, hb]
      exact List.mem_map_of_mem Prod.fst hpair
    · rw [hf, hb]
      exact hpair
  · have hb : rapidHit v2SpamCfg now (clean_history now hist) = true := by
      unfold rapidHit
      simpa using hcount
    have hpair : ("rapid_fire", (3:ℚ)/5) ∈ firedList (3/5)
        (dupHit sig (clean_history now hist)) true sig.linkMatch sig.pumpMatch
        sig.cryptoMatch (capsHit sig) sig.repMatch (emojiHit sig) := by
      simp [firedList]
    have hf : firedRules v2SpamCfg sig now hist
        = firedList (3/5) (dupHit sig (clean_history now hist))
            (rapidHit v2SpamCfg now (clean_history now hist)) sig.linkMatch sig.pumpMatch
            sig.cryptoMatch (capsHit sig) sig.repMatch (emojiHit sig) := rfl
    have hs := spamSeq_eq_firedList (3/5) (Or.inr rfl) (dupHit sig (clean_history now hist))
      (rapidHit v2SpamCfg now (clean_history now hist)) sig.linkMatch sig.pumpMatch
      sig.cryptoMatch (capsHit sig) sig.repMatch (emojiHit sig)
    constructor
    · show "rapid_fire" ∈ (spamSeq (3/5) (dupHit sig (clean_history now hist))
        (rapidHit v2SpamCfg now (clean_history now hist)) sig.linkMatch sig.pumpMatch
        sig.cryptoMatch (capsHit sig) sig.repMatch (emojiHit sig)).1
      rw [hs, hb]
      exact List.mem_map_of_mem Prod.fst hpair
    · rw [hf, hb]
      exact hpair

/-- C3 witness: four messages at times 0, 1, 2 and 3; scoring the fourth
fires `rapid_fire` in v1. -/
theorem rapid_fire_on_fourth_witness :
    (3 ≤ (((clean_history 3 [((0:ℚ), (1:Int)), (1, 2), (2, 3)]).map Prod.fst).filter
          (fun ts => decide ((3:ℚ) - ts < 10))).length)
    ∧ "rapid_fire" ∈ (detect_spam v1SpamCfg ⟨4, false, false, false, 0, 0, false, 0⟩ 3
        [((0:ℚ), (1:Int)), (1, 2), (2, 3)]).1.reasons := by
  refine ⟨by with_unfolding_all decide, ?_⟩
  exact (rapid_fire_on_fourth.1 ⟨4, false, false, false, 0, 0, false, 0⟩ 3
    [((0:ℚ), (1:Int)), (1, 2), (2, 3)] (by with_unfolding_all decide)).1

/-- C9 counterexample: an author whose history holds 20 in-window entries;
after one more `detect_spam` call returns, the history holds 21 entries —
the cleaning caps the prior entries at 20 and the call then appends the
scored message's entry. -/
theorem history_cap_refuted :
    ¬ (((detect_spam v1SpamCfg ⟨100, false, false, false, 0, 0, false, 0⟩ 1
        ((List.range 20).map (fun i => ((0:ℚ), (i:Int))))).2).length ≤ 20) := by
  with_unfolding_all decide

/-- C9 (amended): after a `detect_spam` call returns (either variant's
configuration), the author's history holds at most 21 entries — at most 20
surviving prior entries plus the entry appended for the scored message —
and, provided no stored timestamp lies in the future, every entry's
timestamp lies within the trailing 60-second window ending at the current
time. -/
theorem detect_spam_history_bound (cfg : SpamCfg) (sig : TextSig) (now : ℚ)
    (hist : List (ℚ × Int)) (hmono : ∀ e ∈ hist, e.1 ≤ now) :
    ((detect_spam cfg sig now hist).2).length ≤ 21
    ∧ ∀ e ∈ (detect_spam cfg sig now hist).2, now - e.1 < 60 ∧ e.1 ≤ now := by
  have hlen : (clean_history now hist).length ≤ 20 := by
    unfold clean_history MAX_HISTORY_PER_USER
    simp only [List.length_drop]
    omega
  constructor
  · show ((clean_history now hist) ++ [(now, sig.textHash)]).length ≤ 21
    simp only [List.length_append, List.length_cons, List.length_nil]
    omega
  · intro e he
    have he' : e ∈ (clean_history now hist) ++ [(now, sig.textHash)] := he
    rcases List.mem_append.mp he' with h1 | h2
    · have h3 : e ∈ hist.filter (fun x => decide (now - x.1 < HISTORY_WINDOW)) := by
        unfold clean_history at h1
        exact List.drop_subset _ _ h1
      have h4 := List.mem_filter.mp h3
      refine ⟨?_, hmono e h4.1⟩
      have := of_decide_eq_true h4.2
      simpa [HISTORY_WINDOW] using this
    · have h5 : e = (now, sig.textHash) := by simpa using h2
      subst h5
      constructor
      · norm_num
      · exact le_refl _

/-- C9 witness: a one-entry history within the window. -/
theorem detect_spam_history_bound_witness :
    (∀ e ∈ ([((0:ℚ), (5:Int))] : List (ℚ × Int)), e.1 ≤ (1:ℚ))
    ∧ (((detect_spam v1SpamCfg ⟨7, false, false, false, 0, 0, false, 0⟩ 1
          [((0:ℚ), (5:Int))]).2).length ≤ 21
       ∧ ∀ e ∈ (detect_spam v1SpamCfg ⟨7, false, false, false, 0, 0, false, 0⟩ 1
          [((0:ℚ), (5:Int))]).2, (1:ℚ) - e.1 < 60 ∧ e.1 ≤ 1) :=
  ⟨by with_unfolding_all decide,
   detect_spam_history_bound v1SpamCfg ⟨7, false, false, false, 0, 0, false, 0⟩ 1
     [((0:ℚ), (5:Int))] (by with_unfolding_all decide)⟩


/-- C2: in both variants, a processed message with no extracted topic has
sentiment `"neutral"`, whatever the text (so whatever the lexicon counts
would have been), and when a topic was extracted the sentiment field is
exactly the sentiment analysis of the normalised text — the analysis is
consulted only in that case. -/
theorem no_topic_sentiment_neutral :
    (∀ (normalize : String → String) (sigOf : String → TextSig) (isQ : String → Bool)
        (msg : ChatMsg) (now : ℚ) (st : V1State),
        ((process_message_v1 normalize sigOf isQ msg now st).1.topic = none →
          (process_message_v1 normalize sigOf isQ msg now st).1.sentiment = "neutral")
        ∧ (∀ t, (process_message_v1 normalize sigOf isQ msg now st).1.topic = some t →
          (process_message_v1 normalize sigOf isQ msg now st).1.sentiment
            = analyze_sentiment v1Bullish v1Bearish (normalize msg.message)))
  ∧ (∀ (normalize : String → String) (sigOf : String → TextSig) (isQ : String → Bool)
        (msg : ChatMsg) (now : ℚ) (st : VideoState),
        ((process_message_v2 normalize sigOf isQ msg now st).1.topic = none →
          (process_message_v2 normalize sigOf isQ msg now st).1.sentiment = "neutral")
        ∧ (∀ t, (process_message_v2 normalize sigOf isQ msg now st).1.topic = some t →
          (process_message_v2 normalize sigOf isQ msg now st).1.sentiment
            = analyze_sentiment v2Bullish v2Bearish (normalize msg.message))) := by
  constructor <;> intro normalize sigOf isQ msg now st
  · rcases hd : detect_spam v1SpamCfg (sigOf (normalize msg.message)) now
        (histGet st.user_message_history msg.author) with ⟨sv, h⟩
    rcases he : extract_ticker v1TickerCfg (normalize msg.message) st.session_discovered
      with ⟨topic, disc⟩
    constructor
    · intro ht
      simp [process_message_v1, hd, he] at ht ⊢
      simp [ht]
    · intro t ht
      simp [process_message_v1, hd, he] at ht ⊢
      simp [ht]
  · rcases he : extract_ticker v2TickerCfg (normalize msg.message) st.session_discovered
      with ⟨topic, disc⟩
    constructor
    · intro ht
      simp [process_message_v2, he] at ht ⊢
      simp [ht]
    · intro t ht
      simp [process_message_v2, he] at ht ⊢
      simp [ht]

/-- C2 witness: "hello" extracts no topic and its sentiment is neutral. -/
theorem no_topic_sentiment_neutral_witness :
    ((process_message_v2 (fun t => t) (fun _ => ⟨0, false, false, false, 0, 0, false, 0⟩)
        (fun _ => false) ⟨"hello", "alice", false, false⟩ 0 ⟨[], [], []⟩).1.topic = none)
    ∧ ((process_message_v2 (fun t => t) (fun _ => ⟨0, false, false, false, 0, 0, false, 0⟩)
        (fun _ => false) ⟨"hello", "alice", false, false⟩ 0 ⟨[], [], []⟩).1.sentiment
        = "neutral") := by
  refine ⟨by with_unfolding_all decide, ?_⟩
  exact (no_topic_sentiment_neutral.2 (fun t => t)
    (fun _ => ⟨0, false, false, false, 0, 0, false, 0⟩) (fun _ => false)
    ⟨"hello", "alice", false, false⟩ 0 ⟨[], [], []⟩).1 (by with_unfolding_all decide)

/-- C4 counterexample: the v1 variant's `process_message` never reads the
privilege flags — a channel owner sending the same text twice gets
`is_spam = true` on the second message (the duplicate rule), and the
owner's first message is recorded in the author history. -/
theorem privileged_bypass_refuted_v1 :
    ((process_message_v1 (fun t => t) (fun _ => ⟨0, false, false, false, 0, 0, false, 0⟩)
        (fun _ => false) ⟨"same text", "alice", true, false⟩ 1
        ((process_message_v1 (fun t => t) (fun _ => ⟨0, false, false, false, 0, 0, false, 0⟩)
          (fun _ => false) ⟨"same text", "alice", true, false⟩ 0
          ⟨[], []⟩).2)).1.spam.is_spam = true)
    ∧ ((process_message_v1 (fun t => t) (fun _ => ⟨0, false, false, false, 0, 0, false, 0⟩)
        (fun _ => false) ⟨"same text", "alice", true, false⟩ 0
        ⟨[], []⟩).2.user_message_history ≠ []) := by
  with_unfolding_all decide

/-- C4 (amended): in the v2 variant, a privileged author's message (channel
owner or moderator) receives the fixed clean verdict — not spam, no
reasons, confidence 0 — the rule-based scorer is not invoked, and no
history entry is recorded (the history map is returned unchanged),
regardless of the message content.  The v1 variant has no privilege check
(see the counterexample). -/
theorem privileged_bypass_v2 (normalize : String → String) (sigOf : String → TextSig)
    (isQ : String → Bool) (msg : ChatMsg) (now : ℚ) (st : VideoState)
    (hpriv : (msg.isChatOwner || msg.isChatModerator) = true) :
    (process_message_v2 normalize sigOf isQ msg now st).1.spam
      = { is_spam := false, reason := none, reasons := [], confidence := 0 }
    ∧ (process_message_v2 normalize sigOf isQ msg now st).2.user_message_history
      = st.user_message_history := by
  rcases he : extract_ticker v2TickerCfg (normalize msg.message) st.session_discovered
    with ⟨topic, disc⟩
  constructor <;> simp [process_message_v2, hpriv, he]

/-- C4 witness: a moderator sending link spam still gets the clean verdict
in v2. -/
theorem privileged_bypass_v2_witness :
    ((⟨"JOIN MY DISCORD discord.gg/x", "mod", false, true⟩ : ChatMsg).isChatOwner
      || (⟨"JOIN MY DISCORD discord.gg/x", "mod", false, true⟩ : ChatMsg).isChatModerator) = true
    ∧ (process_message_v2 (fun t => t) (fun _ => ⟨0, true, false, false, 20, 18, false, 0⟩)
        (fun _ => false) ⟨"JOIN MY DISCORD discord.gg/x", "mod", false, true⟩ 0
        ⟨[], [], []⟩).1.spam
      = { is_spam := false, reason := none, reasons := [], confidence := 0 } := by
  refine ⟨by decide, ?_⟩
  exact (privileged_bypass_v2 (fun t => t) (fun _ => ⟨0, true, false, false, 20, 18, false, 0⟩)
    (fun _ => false) ⟨"JOIN MY DISCORD discord.gg/x", "mod", false, true⟩ 0
    ⟨[], [], []⟩ (by decide)).1


/-- The claim's reading of the sentiment function, stated for comparison
with `analyze_sentiment`: each positive/negative glyph present in the text
adds +2 to its side's count. -/
def sentimentSpec (bullLex bearLex : List String) (text : String) : String :=
  let words := (wordTokens (text.data.map lowerChar)).toFinset
  let b := (words ∩ bullLex.toFinset).card
    + 2 * (posGlyphs.filter (fun c => text.data.contains c)).length
  let r := (words ∩ bearLex.toFinset).card
    + 2 * (negGlyphs.filter (fun c => text.data.contains c)).length
  if r < b then "bullish" else if b < r then "bearish" else "neutral"

/-- The amended reading: +2 is added once to a side's count when at least
one of that side's glyphs is present, not once per glyph. -/
def sentimentAmended (bullLex bearLex : List String) (text : String) : String :=
  let words := (wordTokens (text.data.map lowerChar)).toFinset
  let b := (words ∩ bullLex.toFinset).card
    + (if posGlyphs.any (fun c => text.data.contains c) then 2 else 0)
  let r := (words ∩ bearLex.toFinset).card
    + (if negGlyphs.any (fun c => text.data.contains c) then 2 else 0)
  if r < b then "bullish" else if b < r then "bearish" else "neutral"

/-- Counting a duplicate-free lexicon's words that occur among the text's
tokens computes the cardinality of the intersection of the two sets
(Python's `len(set(words) & LEXICON)`). -/
theorem length_filter_contains (lex ws : List String) (h : lex.Nodup) :
    (lex.filter (fun w => ws.contains w)).length
      = (ws.toFinset ∩ lex.toFinset).card := by
  have h1 : (lex.filter (fun w => ws.contains w)).toFinset.card
      = (lex.filter (fun w => ws.contains w)).length :=
    List.toFinset_card_of_nodup (h.filter _)
  rw [← h1, List.toFinset_filter]
  congr 1
  ext a
  simp [Finset.mem_filter, Finset.mem_inter, List.mem_toFinset]
  tauto

/-- C7 counterexample: `"sell dump crash 🚀📈"` holds three bearish lexicon
words and two positive glyphs.  The code adds +2 once for the positive side
(2 < 3, so `"bearish"`); under the claim's per-glyph reading the positive
side would get +4 (4 > 3, so `"bullish"`). -/
theorem sentiment_glyph_refuted :
    analyze_sentiment v1Bullish v1Bearish "sell dump crash 🚀📈"
      ≠ sentimentSpec v1Bullish v1Bearish "sell dump crash 🚀📈"
    ∧ analyze_sentiment v1Bullish v1Bearish "sell dump crash 🚀📈" = "bearish"
    ∧ sentimentSpec v1Bullish v1Bearish "sell dump crash 🚀📈" = "bullish" := by
  with_unfolding_all decide

/-- C7 (amended): in both variants, `analyze_sentiment` tokenizes to
lowercase words, counts the set intersection with each lexicon, adds +2 to
the bullish (resp. bearish) count when at least one positive (resp.
negative) glyph is present — once per side, not per glyph — and returns the
side with the strictly greater count, ties yielding neutral. -/
theorem sentiment_amended_ok :
    (∀ text : String, analyze_sentiment v1Bullish v1Bearish text
        = sentimentAmended v1Bullish v1Bearish text)
    ∧ (∀ text : String, analyze_sentiment v2Bullish v2Bearish text
        = sentimentAmended v2Bullish v2Bearish text) := by
  constructor <;> intro text
  · simp only [analyze_sentiment, sentimentAmended]
    rw [length_filter_contains v1Bullish _ (by decide),
        length_filter_contains v1Bearish _ (by decide)]
    cases hp : (posGlyphs.any fun c => text.data.contains c) <;>
      cases hn : (negGlyphs.any fun c => text.data.contains c) <;> simp
  · simp only [analyze_sentiment, sentimentAmended]
    rw [length_filter_contains v2Bullish _ (by decide),
        length_filter_contains v2Bearish _ (by decide)]
    cases hp : (posGlyphs.any fun c => text.data.contains c) <;>
      cases hn : (negGlyphs.any fun c => text.data.contains c) <;> simp


/-- Rules 2-4 of the extractor never produce a dollar-only word: no company
mapping's value is dollar-only (a decidable side condition of the
dictionaries), and both free-text passes skip dollar-only words
explicitly. -/
theorem extract_rest_not_dollarOnly (cfg : TickerCfg)
    (hcv : cfg.companyNames.all (fun p => !cfg.dollarOnly.contains p.2) = true)
    (text : String) (disc : List String) (w : String)
    (hw : cfg.dollarOnly.contains w = true) :
    extract_rest cfg text disc ≠ some w := by
  intro hres
  have hw' : w ∈ cfg.dollarOnly := by simpa using hw
  simp only [extract_rest] at hres
  split at hres
  case h_1 p hp =>
    have hmem := List.mem_of_find?_eq_some hp
    have hall := List.all_eq_true.mp hcv p hmem
    injection hres with h2
    rw [h2] at hall
    simp at hall
    exact hall hw'
  case h_2 =>
    split at hres
    case h_1 x hx =>
      have hpred := List.find?_some hx
      injection hres with h2
      subst h2
      simp at hpred
      tauto
    case h_2 =>
      split at hres
      · have hpred := List.find?_some hres
        simp at hpred
        tauto
      · exact Option.noConfusion hres

/-- A successful `$`-scan means the scanned text holds a `$` character. -/
theorem dollarScan_has_dollar (l : List Char) (t : String) (h : dollarScan l = some t) :
    '$' ∈ l := by
  induction l with
  | nil => simp [dollarScan] at h
  | cons c cs ih =>
    by_cases hc : c = '$'
    · subst hc
      exact List.mem_cons_self _ _
    · refine List.mem_cons_of_mem _ (ih ?_)
      rw [dollarScan, if_neg (by simpa using hc)] at h
      exact h

/-- C8: in both variants, whenever `extract_ticker` returns a word of the
`DOLLAR_ONLY_TICKERS` set, that word came from the `$`-prefix rule — the
leftmost `$`-token of the uppercased text is exactly that word — and in
particular the text contains a `$`.  This holds for every text (with or
without stock-context words) and every session-discovered set (even one
already holding the word): the free-text passes skip dollar-only words
unconditionally. -/
theorem dollar_only_requires_marker :
    (∀ (text : String) (disc : List String) (w : String),
        v1TickerCfg.dollarOnly.contains w = true →
        (extract_ticker v1TickerCfg text disc).1 = some w →
        dollarScan (text.data.map upperChar) = some w ∧ '$' ∈ text.data.map upperChar)
  ∧ (∀ (text : String) (disc : List String) (w : String),
        v2TickerCfg.dollarOnly.contains w = true →
        (extract_ticker v2TickerCfg text disc).1 = some w →
        dollarScan (text.data.map upperChar) = some w ∧ '$' ∈ text.data.map upperChar) := by
  have hcv1 : v1TickerCfg.companyNames.all
      (fun p => !v1TickerCfg.dollarOnly.contains p.2) = true := by decide
  have hcv2 : v2TickerCfg.companyNames.all
      (fun p => !v2TickerCfg.dollarOnly.contains p.2) = true := by decide
  constructor <;> intro text disc w hw hres <;> simp only [extract_ticker] at hres
  · split at hres
    case h_1 t ht =>
      split at hres
      · simp only at hres
        injection hres with h2
        subst h2
        exact ⟨ht, dollarScan_has_dollar _ _ ht⟩
      · exact absurd hres (extract_rest_not_dollarOnly _ hcv1 _ _ _ hw)
    case h_2 =>
      exact absurd hres (extract_rest_not_dollarOnly _ hcv1 _ _ _ hw)
  · split at hres
    case h_1 t ht =>
      split at hres
      · simp only at hres
        injection hres with h2
        subst h2
        exact ⟨ht, dollarScan_has_dollar _ _ ht⟩
      · exact absurd hres (extract_rest_not_dollarOnly _ hcv2 _ _ _ hw)
    case h_2 =>
      exact absurd hres (extract_rest_not_dollarOnly _ hcv2 _ _ _ hw)

/-- C8 witness: `$ON` is extracted, and indeed via the `$` rule. -/
theorem dollar_only_requires_marker_witness :
    v2TickerCfg.dollarOnly.contains "ON" = true
    ∧ (extract_ticker v2TickerCfg "$ON" []).1 = some "ON"
    ∧ dollarScan (("$ON" : String).data.map upperChar) = some "ON" := by
  refine ⟨by decide, by with_unfolding_all decide, ?_⟩
  exact (dollar_only_requires_marker.2 "$ON" [] "ON" (by decide)
    (by with_unfolding_all decide)).1


/-- C10: in both variants, rule 1 of `extract_ticker` looks only at the
leftmost `$`-token of the message.  If that token is not an ignore word it
is returned and added to the session-discovered set (even when it is
dollar-only or ambiguous); if it is an ignore word, rule 1 yields nothing
and the extractor falls through to rules 2-4 without considering any later
`$`-token. -/
theorem dollar_rule_leftmost :
    (∀ (text : String) (disc : List String) (t : String),
        dollarScan (text.data.map upperChar) = some t →
        v1TickerCfg.ignoreWords.contains t = false →
        extract_ticker v1TickerCfg text disc
          = (some t, if disc.contains t then disc else t :: disc))
  ∧ (∀ (text : String) (disc : List String) (t : String),
        dollarScan (text.data.map upperChar) = some t →
        v1TickerCfg.ignoreWords.contains t = true →
        extract_ticker v1TickerCfg text disc = (extract_rest v1TickerCfg text disc, disc))
  ∧ (∀ (text : String) (disc : List String) (t : String),
        dollarScan (text.data.map upperChar) = some t →
        v2TickerCfg.ignoreWords.contains t = false →
        extract_ticker v2TickerCfg text disc
          = (some t, if disc.contains t then disc else t :: disc))
  ∧ (∀ (text : String) (disc : List String) (t : String),
        dollarScan (text.data.map upperChar) = some t →
        v2TickerCfg.ignoreWords.contains t = true →
        extract_ticker v2TickerCfg text disc = (extract_rest v2TickerCfg text disc, disc)) := by
  refine ⟨?_, ?_, ?_, ?_⟩ <;> intro text disc t hscan hign <;>
    simp only [extract_ticker, hscan, hign] <;> simp

set_option maxRecDepth 8000 in
/-- C10 witness: `$IT` (a dollar-only word, not ignored) is returned and
recorded; in `$THE $ZZZZZ` the leftmost `$`-token `THE` is an ignore word,
so the whole extraction yields nothing even though a later `$`-token is not
in the ignore set. -/
theorem dollar_rule_leftmost_witness :
    dollarScan (("$IT hello" : String).data.map upperChar) = some "IT"
    ∧ v1TickerCfg.ignoreWords.contains "IT" = false
    ∧ extract_ticker v1TickerCfg "$IT hello" [] = (some "IT", ["IT"])
    ∧ dollarScan (("$THE $ZZZZZ" : String).data.map upperChar) = some "THE"
    ∧ v1TickerCfg.ignoreWords.contains "THE" = true
    ∧ extract_ticker v1TickerCfg "$THE $ZZZZZ" []
        = (extract_rest v1TickerCfg "$THE $ZZZZZ" [], [])
    ∧ extract_rest v1TickerCfg "$THE $ZZZZZ" [] = none := by
  refine ⟨by with_unfolding_all decide, by decide, ?_, by with_unfolding_all decide, by decide,
    ?_, by with_unfolding_all decide⟩
  · have h := dollar_rule_leftmost.1 "$IT hello" [] "IT"
      (by with_unfolding_all decide) (by decide)
    simpa using h
  · exact dollar_rule_leftmost.2.1 "$THE $ZZZZZ" [] "THE"
      (by with_unfolding_all decide) (by decide)


/-- Looking up a key just stored finds the stored value. -/
theorem alistFind_set_self {α : Type} (m : List (String × α)) (k : String) (v : α) :
    alistFind (alistSet m k v) k = some v := by
  induction m with
  | nil => simp [alistSet, alistFind]
  | cons p rest ih =>
    by_cases h : p.1 == k
    · simp [alistSet, alistFind, h]
    · simp only [alistSet, h, if_false, Bool.false_eq_true]
      simpa [alistFind, List.find?_cons, h] using ih

/-- Removing the client from its previous video's set does not touch the
scraper map. -/
theorem dropPrev_active (S : Server) (ws : Nat) (prev : Option String) :
    (dropPrev S ws prev).active_scrapers = S.active_scrapers := by
  rcases prev with _ | pv
  · rfl
  · unfold dropPrev
    rcases h : alistFind S.video_clients pv with _ | l <;> simp [h]

/-- Adding the client to a subscriber set does not touch the scraper
map. -/
theorem addClient_active (S : Server) (ws : Nat) (vid : String) :
    (addClient S ws vid).active_scrapers = S.active_scrapers := rfl

/-- C5 (amended): a SUBSCRIBE for a video with no active scraper starts
exactly one scraper (afterwards the video appears exactly once in the
scraper map); when the last subscriber unsubscribes the poll gate turns
false, and the next head-of-loop poll breaks out and deletes the scraper
entry (the "within one poll cycle" stop); but the session's `video_state`
entry is not freed: a later `get_video_state` — as run by a freshly started
pipeline — returns the stored state unchanged, so the per-author spam
history, discovered-ticker set and pulse buffer persist across a
stop/re-subscribe (see the counterexample). -/
theorem session_lifecycle :
    (∀ (S : Server) (ws : Nat) (prev : Option String) (vid : String),
        S.active_scrapers.contains vid = false →
        (subscribeStep S ws prev vid).active_scrapers.count vid = 1)
  ∧ (∀ (S : Server) (ws : Nat) (vid : String),
        alistFind S.video_clients vid = some [ws] →
        scraperPollGate (unsubscribeStep S ws vid) vid = false)
  ∧ (∀ (S : Server) (vid : String),
        scraperPollGate S vid = false →
        scraperLoopCheck S vid = (scraperStop S vid, false)
        ∧ (scraperStop S vid).active_scrapers.contains vid = false)
  ∧ (∀ (S : Server) (vid : String) (st : VideoState),
        alistFind S.video_state vid = some st →
        get_video_state S vid = (st, S)) := by
  refine ⟨?_, ?_, ?_, ?_⟩
  · intro S ws prev vid hvid
    unfold subscribeStep ensureScraper
    rw [addClient_active, dropPrev_active, hvid]
    simp only [Bool.false_eq_true, if_false]
    have h0 : S.active_scrapers.count vid = 0 := by
      rw [List.count_eq_zero]
      simpa using hvid
    simp [addClient_active, dropPrev_active, List.count_append, h0]
  · intro S ws vid hfind
    unfold unsubscribeStep
    rw [hfind]
    simp only [scraperPollGate]
    rw [alistFind_set_self]
    simp
  · intro S vid hgate
    constructor
    · unfold scraperLoopCheck
      rw [hgate]
      simp
    · simp [scraperStop]
  · intro S vid st hfind
    unfold get_video_state
    rw [hfind]


/-- Concrete trace refuting the freed-state part of C5 (the normalisation,
text-signal and question parameters are trivial).  A client subscribes to
session `"v"`, the scraper starts and processes one message from `alice`;
the client unsubscribes; the scraper's next poll stops it; the same client
re-subscribes, starting a fresh scraper. -/
def c5Norm : String → String := fun t => t
def c5Sig : String → TextSig := fun _ => ⟨0, false, false, false, 0, 0, false, 0⟩
def c5Q : String → Bool := fun _ => false
def c5Server1 : Server := subscribeStep ⟨[], [], []⟩ 0 none "v"
def c5Server2 : Server := (get_video_state c5Server1 "v").2
def c5Server3 : Server :=
  scraperProcess c5Norm c5Sig c5Q c5Server2 "v" ⟨"hello", "alice", false, false⟩ 0
def c5Server4 : Server := unsubscribeStep c5Server3 0 "v"
def c5Server5 : Server := (scraperLoopCheck c5Server4 "v").1
def c5Server6 : Server := subscribeStep c5Server5 0 none "v"

/-- C5 counterexample: after the stop (the gate was false and the scraper
entry was removed) and the re-subscribe (a scraper is active again), the
state a fresh pipeline obtains from `get_video_state` still holds `alice`'s
spam history and the old pulse buffer — not the empty state the claim
asserts. -/
theorem session_state_not_freed :
    scraperPollGate c5Server4 "v" = false
    ∧ c5Server5.active_scrapers.contains "v" = false
    ∧ c5Server6.active_scrapers.contains "v" = true
    ∧ histGet (get_video_state c5Server6 "v").1.user_message_history "alice" ≠ []
    ∧ (get_video_state c5Server6 "v").1.pulse_buffer ≠ [] := by
  with_unfolding_all decide

/-- C5 witness: concrete instances for the four amended parts. -/
theorem session_lifecycle_witness :
    ((⟨[], [], []⟩ : Server).active_scrapers.contains "v" = false
      ∧ (subscribeStep ⟨[], [], []⟩ 0 none "v").active_scrapers.count "v" = 1)
    ∧ (alistFind (⟨[("v", [0])], ["v"], []⟩ : Server).video_clients "v" = some [0]
      ∧ scraperPollGate (unsubscribeStep ⟨[("v", [0])], ["v"], []⟩ 0 "v") "v" = false)
    ∧ (scraperPollGate (⟨[("v", [])], ["v"], []⟩ : Server) "v" = false
      ∧ (scraperStop ⟨[("v", [])], ["v"], []⟩ "v").active_scrapers.contains "v" = false)
    ∧ (alistFind (⟨[], [], [("v", ⟨[], [("alice", [(0, 7)])], []⟩)]⟩ : Server).video_state "v"
          = some ⟨[], [("alice", [(0, 7)])], []⟩
      ∧ get_video_state ⟨[], [], [("v", ⟨[], [("alice", [(0, 7)])], []⟩)]⟩ "v"
          = (⟨[], [("alice", [(0, 7)])], []⟩, ⟨[], [], [("v", ⟨[], [("alice", [(0, 7)])], []⟩)]⟩)) := by
  refine ⟨⟨by decide, session_lifecycle.1 ⟨[], [], []⟩ 0 none "v" (by decide)⟩,
    ⟨by decide, session_lifecycle.2.1 ⟨[("v", [0])], ["v"], []⟩ 0 "v" (by decide)⟩,
    ⟨by decide, (session_lifecycle.2.2.1 ⟨[("v", [])], ["v"], []⟩ "v" (by decide)).2⟩,
    ⟨by with_unfolding_all decide, session_lifecycle.2.2.2 _ "v" _ (by with_unfolding_all decide)⟩⟩

/-- A pending message awaiting vibe classification, used by the vibe
theorems. -/
def mkMsg (t : String) : MsgResult :=
  { text := t, author := "u", timestamp := 0, topic := none, sentiment := "neutral",
    isQuestion := false, vibe := none,
    spam := { is_spam := false, reason := none, reasons := [], confidence := 0 } }

/-- C6 counterexample: a pending batch of four messages with an oracle that
answers `funny` for every text.  The pass queries only `batch[-20:][:3]` —
the oldest three — and leaves the most recent message `"d"` without a vibe,
whereas under the claim's "most recent K" reading message `"a"` would be
the one left untouched. -/
theorem vibe_most_recent_refuted :
    vibePass VIBE_BATCH_SIZE_v2 (fun _ => some "funny")
        [mkMsg "a", mkMsg "b", mkMsg "c", mkMsg "d"]
      ≠ vibePassSpec VIBE_BATCH_SIZE_v2 (fun _ => some "funny")
        [mkMsg "a", mkMsg "b", mkMsg "c", mkMsg "d"]
    ∧ ((vibePass VIBE_BATCH_SIZE_v2 (fun _ => some "funny")
        [mkMsg "a", mkMsg "b", mkMsg "c", mkMsg "d"]).map MsgResult.vibe
      = [some "funny", some "funny", some "funny", none]) := by
  with_unfolding_all decide

/-- C6 (amended): the vibe pass runs only when at least the configured
interval has elapsed since the last pass (and the pending batch is
nonempty) — so passes are at least `VIBE_CHECK_INTERVAL` apart; each pass
queries the completion service only for the *first* `K` messages of the
trailing 20 of the pending batch (the oldest `K` of the most recent 20,
`batch[-20:][:K]`), leaving every other pending message unchanged, with
`K = VIBE_BATCH_SIZE = 3` in the production variant and 10 in the local
variant (intervals 30s and 3s). -/
theorem vibe_pass_window :
    (∀ (interval now lastCheck : ℚ) (batch : List MsgResult),
        vibeDue interval now lastCheck batch = true →
        interval ≤ now - lastCheck ∧ batch ≠ [])
  ∧ (∀ (K : Nat) (vibeOf : String → Option String) (batch : List MsgResult),
        vibePass K vibeOf batch
          = batch.take (batch.length - 20)
            ++ ((batch.drop (batch.length - 20)).take K).map (updVibe vibeOf)
            ++ (batch.drop (batch.length - 20)).drop K)
  ∧ VIBE_BATCH_SIZE_v2 = 3 ∧ VIBE_BATCH_SIZE_v1 = 10
  ∧ VIBE_CHECK_INTERVAL_v2 = 30 ∧ VIBE_CHECK_INTERVAL_v1 = 3 := by
  refine ⟨?_, ?_, rfl, rfl, rfl, rfl⟩
  · intro interval now lastCheck batch h
    unfold vibeDue at h
    simp only [Bool.and_eq_true, decide_eq_true_iff, Bool.not_eq_true'] at h
    refine ⟨h.1, ?_⟩
    simpa [List.isEmpty_iff] using h.2
  · intro K vibeOf batch
    by_cases hE : batch.drop (batch.length - 20) = []
    · simp [vibePass, classify_vibe_batch, hE]
    · simp [vibePass, classify_vibe_batch, hE, List.append_assoc]

/-- C6 witness: at time 40 with the last check at 0, a pass is due and
indeed 30 seconds have elapsed. -/
theorem vibe_pass_window_witness :
    vibeDue VIBE_CHECK_INTERVAL_v2 40 0 [mkMsg "a"] = true
    ∧ VIBE_CHECK_INTERVAL_v2 ≤ (40 : ℚ) - 0 := by
  refine ⟨by with_unfolding_all decide, ?_⟩
  exact (vibe_pass_window.1 VIBE_CHECK_INTERVAL_v2 40 0 [mkMsg "a"]
    (by with_unfolding_all decide)).1

end ChatViz
